import Mathlib

/-!
Verification of the ServiceSync AI diagnostic-assistance workflow
(`src/agents.py`, `src/orchestrator.py`, `backend/database/models.py`,
`backend/database/setup_db.py`) against its natural-language specification.

The Python code is shallowly embedded: pure functions become Lean functions,
SQLite tables become lists of row structures, SQL queries become
filter/sort/take pipelines, and Python exceptions become `Except PyError`.
Machine-level details that matter are modelled explicitly:
`str.strip`/`str.upper`/`str.find`/`str.rfind` and Python slice index
normalisation are implemented over `List Char`, and Python name resolution
is modelled where it decides behaviour (the module
`backend/database/models.py` never imports `re`, so every call of
`resolve_fault_code` raises `NameError: name 're' is not defined`).
-/

/-! ## Python semantics helpers -/

/-- Python exceptions that the embedded code can raise. -/
inductive PyError where
  /-- `subprocess.TimeoutExpired`, raised by `subprocess.run(..., timeout=30)`. -/
  | timeoutExpired : PyError
  /-- `NameError: name '<n>' is not defined`. -/
  | nameError (n : String) : PyError
  deriving Repr, DecidableEq

/-- Characters stripped by Python `str.strip()` and matched by the regex
class `\s` (ASCII range; the Python originals also strip some further
Unicode whitespace, which never occurs in the inputs at issue). -/
def pyIsSpace (c : Char) : Bool :=
  c = ' ' || c = '\t' || c = '\n' || c = '\r' || c = '\x0b' || c = '\x0c'

/-- Python `str.strip()` on a character list: drop whitespace from both ends. -/
def pyStrip (l : List Char) : List Char :=
  ((l.dropWhile pyIsSpace).reverse.dropWhile pyIsSpace).reverse

/-- Python `str.upper()` (ASCII portion, which covers fault-code input). -/
def pyUpper (l : List Char) : List Char :=
  l.map Char.toUpper

/-- String-valued version of `pyStrip`. -/
def pyStrStrip (s : String) : String :=
  String.mk (pyStrip s.toList)

/-- String-valued version of `pyUpper`. -/
def pyStrUpper (s : String) : String :=
  String.mk (pyUpper s.toList)

/-- Python `str.find(c)`: index of the first occurrence, `-1` if absent. -/
def pyFind (l : List Char) (c : Char) : Int :=
  match l.findIdx? (· = c) with
  | some i => (i : Int)
  | none => -1

/-- Python `str.rfind(c)`: index of the last occurrence, `-1` if absent. -/
def pyRFind (l : List Char) (c : Char) : Int :=
  match l.reverse.findIdx? (· = c) with
  | some i => ((l.length - 1 - i : Nat) : Int)
  | none => -1

/-- Normalise one Python slice endpoint for a sequence of length `n`:
negative indices count from the end, then the result is clamped to `[0, n]`. -/
def pyNormIdx (n : Nat) (i : Int) : Nat :=
  let j := if i < 0 then i + (n : Int) else i
  if j < 0 then 0 else min j.toNat n

/-- Python slicing `l[a:b]` (step 1). -/
def pySlice (l : List Char) (a b : Int) : List Char :=
  (l.take (pyNormIdx l.length b)).drop (pyNormIdx l.length a)

/-- Numeric value of a decimal digit character. -/
def digitVal (c : Char) : Nat := c.toNat - '0'.toNat

/-- Accumulating parser for the digit part of Python `int(str)`: decimal
digits, optionally grouped by single underscores placed between digits. -/
def pyDigitsGo (acc : Nat) : List Char → Option Nat
  | [] => some acc
  | '_' :: c :: rest =>
      if c.isDigit then pyDigitsGo (acc * 10 + digitVal c) rest else none
  | c :: rest =>
      if c.isDigit then pyDigitsGo (acc * 10 + digitVal c) rest else none

/-- Digit sequence accepted by Python `int(str)` after the optional sign:
at least one digit, underscores only between digits. -/
def pyDigits : List Char → Option Nat
  | [] => none
  | c :: rest => if c.isDigit then pyDigitsGo (digitVal c) rest else none

/-- Python `int(str)` on an already-stripped string: an optional single
`+`/`-` sign followed by decimal digits (with underscore grouping).
Returns `none` where the Python original raises `ValueError`.
(Non-ASCII decimal digits, also accepted by Python, are not modelled;
no input at issue contains them.) -/
def pyIntParse : List Char → Option Int
  | '+' :: rest => (pyDigits rest).map fun n => (n : Int)
  | '-' :: rest => (pyDigits rest).map fun n => -(n : Int)
  | l => (pyDigits l).map fun n => (n : Int)

/-! ## Embedding of `src/agents.py` -/

/-- Result dictionary produced by `TriageAgent.diagnose`
(`src/agents.py` lines 35-41): the decoded JSON reply of the backend,
constrained by the prompt to the keys `diagnosis`, `confidence`,
`reasoning`. -/
structure Diagnosis where
  diagnosis : String
  confidence : Int
  reasoning : String
  deriving Repr, DecidableEq

namespace TriageAgent

/-- Fixed fallback dictionary returned by the bare `except:` branch of
`TriageAgent.diagnose` (`src/agents.py` lines 37-41). -/
def fallback : Diagnosis :=
  { diagnosis := "Unable to diagnose"
    confidence := 0
    reasoning := "Error parsing AI response" }

/-- Outcome of the `subprocess.run(["ollama", ...], timeout=30)` call
(`src/agents.py` lines 21-26): either the 30-second timeout expires, or the
process completes and yields its captured stdout. -/
inductive RunResult where
  | timeout : RunResult
  | ok (stdout : String) : RunResult
  deriving Repr, DecidableEq

/-- The brace-scanning extraction of `TriageAgent.diagnose`
(`src/agents.py` lines 29-34): `response = result.stdout.strip()`,
`start = response.find('{')`, `end = response.rfind('}') + 1`,
`json_str = response[start:end]`. -/
def json_str (stdout : String) : String :=
  let response := pyStrip stdout.toList
  String.mk (pySlice response (pyFind response '{') (pyRFind response '}' + 1))

/-- Embedding of `TriageAgent.diagnose` (`src/agents.py` lines 7-41).
`loads` abstracts `json.loads` restricted to the reply schema the prompt
demands: `loads s = none` exactly when `json.loads(s)` raises.
The `subprocess.run` call sits OUTSIDE the `try:` block, so a timeout
raises `subprocess.TimeoutExpired` out of `diagnose`; only the brace
scanning, slicing and JSON decoding (lines 28-41, factored through
`json_str` above) are guarded by the bare `except:`, which converts any
parse failure into `fallback`. -/
def diagnose (loads : String → Option Diagnosis) (backend : RunResult) :
    Except PyError Diagnosis :=
  match backend with
  | .timeout => .error .timeoutExpired
  | .ok stdout =>
      -- return json.loads(json_str), with the bare except: returning fallback
      match loads (json_str stdout) with
      | some d => .ok d
      | none => .ok fallback

end TriageAgent

/-- Result dictionary produced by `EscalationAgent.decide`
(`src/agents.py` lines 82-111). -/
structure EscalationDecision where
  decision : String
  reasoning : String
  requires_approval : Bool
  deriving Repr, DecidableEq

namespace EscalationAgent

/-- Embedding of `EscalationAgent.decide` (`src/agents.py` lines 82-111):
a pure rule cascade on (confidence, complexity, tech_level), first matching
rule wins. -/
def decide (confidence : Int) (complexity tech_level : String) :
    EscalationDecision :=
  if 85 < confidence ∧ complexity = "low" then
    { decision := "PROCEED"
      reasoning := "High confidence, routine repair"
      requires_approval := false }
  else if confidence < 70 then
    { decision := "ESCALATE"
      reasoning := "Low confidence, need senior review"
      requires_approval := true }
  else if complexity = "high" then
    { decision := "ESCALATE"
      reasoning := "High complexity, need senior approval"
      requires_approval := true }
  else
    { decision := "PROCEED_WITH_GUIDANCE"
      reasoning := "Medium complexity, " ++ tech_level ++ " tech can handle with guidance"
      requires_approval := false }

end EscalationAgent

/-! ## Embedding of `backend/database/models.py`

The SQLite store is modelled as lists of row structures, one list per
relation, in physical table order. `fetchone()` is `List.find?` (first row
in table order), `fetchall()` with `ORDER BY c DESC` is `insertionSort` by
the descending relation on `c`, `LIMIT n` is `List.take n`. `DATETIME` and
`DATE` values are modelled as `Nat` time points (ISO-8601 strings compare
lexicographically consistently with chronological order, so the `ORDER BY`
results agree). SQLite `FLOAT`/`REAL` money and probability columns, whose
values no claim examines, are modelled as `Rat`. -/

/-- Row of the `fault_codes` table as `models.py` reads and writes it
(`add_fault_code`, lines 147-166): the rich multi-notation schema.
`NULL`able columns are `Option`; an SQL `WHERE col = ?` never matches a
`NULL` column. -/
structure FaultCodeRow where
  id : Nat
  cummins_code : Option Int
  spn : Option Int
  fmi : Option Int
  obd2_code : Option String
  pid_sid : Option String
  description : String
  system_category : String
  complexity : String
  safety_critical : Bool
  causes_derate : Bool
  qsol_procedure : Option String
  applies_to : String
  deriving Repr, DecidableEq

/-- Row of the `typical_causes` table. -/
structure CauseRow where
  fault_code_id : Nat
  cause : String
  probability : Rat
  deriving Repr, DecidableEq

/-- Row of the `edge_cases` table. -/
structure EdgeRow where
  fault_code_id : Nat
  scenario : String
  likely_cause : String
  ai_value_add : String
  deriving Repr, DecidableEq

/-- Dict produced for one typical cause by `_enrich_fault_code`
(`SELECT cause, probability`). -/
structure TypicalCause where
  cause : String
  probability : Rat
  deriving Repr, DecidableEq

/-- Dict produced for one edge case by `_enrich_fault_code`
(`SELECT scenario, likely_cause, ai_value_add`). -/
structure EdgeCase where
  scenario : String
  likely_cause : String
  ai_value_add : String
  deriving Repr, DecidableEq

/-- Return value of the fault-code lookups: the matched `fault_codes` row
together with the `typical_causes` and `edge_cases` attached by
`_enrich_fault_code` (`models.py` lines 25-45). -/
structure EnrichedFaultCode where
  row : FaultCodeRow
  typical_causes : List TypicalCause
  edge_cases : List EdgeCase
  deriving Repr, DecidableEq

/-- Row of the `service_history` table as `models.py` reads and writes it
(`add_service_record`, lines 191-206). -/
structure ServiceRecordRow where
  id : Nat
  engine_serial : String
  service_date : Nat
  fault_code_input : String
  repair_type : String
  parts_replaced : Option String
  part_cost : Rat
  technician_id : Option String
  technician_notes : Option String
  warranty_status : String
  deriving Repr, DecidableEq

/-- Columns selected by `get_service_history` (`models.py` lines 178-179). -/
structure ServiceHistoryEntry where
  service_date : Nat
  fault_code_input : String
  repair_type : String
  parts_replaced : Option String
  part_cost : Rat
  technician_notes : Option String
  warranty_status : String
  deriving Repr, DecidableEq

/-- Row of the `decision_logs` table, with the columns `models.py` writes
(`log_decision`, lines 227-250) and later mutates (`approve_decision`,
`record_outcome`). The columns filled purely by SQL defaults and read by no
query at issue (`created_at`, `sync_timestamp`) are omitted. -/
structure DecisionLogRow where
  id : Nat
  timestamp : Nat
  engine_serial : String
  fault_code_input : String
  fault_code_id : Option Nat
  tech_id : String
  tech_skill_level : String
  symptoms : String
  insite_data : Option String
  triage_diagnosis : String
  triage_confidence : Int
  triage_reasoning : String
  alternative_causes : Option String
  recommended_tests : Option String
  recent_repairs : Option String
  service_history_flags : Option String
  escalation_decision : String
  escalation_reasoning : String
  requires_approval : Bool
  online_status : String
  llm_model : String
  llm_version : String
  approved_by : Option String
  approval_timestamp : Option Nat
  actual_repair : Option String
  parts_used : Option String
  repair_successful : Option Bool
  updated_at : Nat
  deriving Repr, DecidableEq

/-- The relational state behind `servicesync.db`, one list per relation
used by the embedded queries. -/
structure Database where
  fault_codes : List FaultCodeRow
  typical_causes : List CauseRow
  edge_cases : List EdgeRow
  service_history : List ServiceRecordRow
  decision_logs : List DecisionLogRow
  deriving Repr, DecidableEq

/-- Embedding of `_enrich_fault_code` (`models.py` lines 25-45): attach the
full, unpaginated `typical_causes` and `edge_cases` sets of the given
`fault_codes` row. The Python `None` short-circuit is rendered by `Option.map`
at the call sites. -/
def _enrich_fault_code (db : Database) (code_row : FaultCodeRow) : EnrichedFaultCode :=
  { row := code_row
    typical_causes :=
      (db.typical_causes.filter (fun r => r.fault_code_id == code_row.id)).map
        (fun r => { cause := r.cause, probability := r.probability })
    edge_cases :=
      (db.edge_cases.filter (fun r => r.fault_code_id == code_row.id)).map
        (fun r => { scenario := r.scenario, likely_cause := r.likely_cause,
                    ai_value_add := r.ai_value_add }) }

/-- Embedding of `get_fault_code_by_spn_fmi` (`models.py` lines 48-55):
`SELECT * FROM fault_codes WHERE spn = ? AND fmi = ?`, first row wins. -/
def get_fault_code_by_spn_fmi (db : Database) (spn fmi : Int) : Option EnrichedFaultCode :=
  (db.fault_codes.find? (fun r => r.spn == some spn && r.fmi == some fmi)).map
    (_enrich_fault_code db)

/-- Embedding of `get_fault_code_by_obd2` (`models.py` lines 58-65):
`SELECT * FROM fault_codes WHERE obd2_code = ?` with the argument
uppercased. -/
def get_fault_code_by_obd2 (db : Database) (obd2_code : String) : Option EnrichedFaultCode :=
  (db.fault_codes.find? (fun r => r.obd2_code == some (pyStrUpper obd2_code))).map
    (_enrich_fault_code db)

/-- Embedding of `get_fault_code_by_cummins_code` (`models.py` lines 68-75):
`SELECT * FROM fault_codes WHERE cummins_code = ?`. -/
def get_fault_code_by_cummins_code (db : Database) (cummins_code : Int) : Option EnrichedFaultCode :=
  (db.fault_codes.find? (fun r => r.cummins_code == some cummins_code)).map
    (_enrich_fault_code db)

/-- Embedding of `get_fault_code_by_pid_sid` (`models.py` lines 78-85):
`SELECT * FROM fault_codes WHERE pid_sid = ?` with the argument uppercased. -/
def get_fault_code_by_pid_sid (db : Database) (pid_sid : String) : Option EnrichedFaultCode :=
  (db.fault_codes.find? (fun r => r.pid_sid == some (pyStrUpper pid_sid))).map
    (_enrich_fault_code db)

/-- Integer value of a digit string, as Python `int` reads a regex group of
`\d+` (leading zeros allowed). -/
def digitsToNat (l : List Char) : Nat :=
  l.foldl (fun acc c => acc * 10 + digitVal c) 0

/-- Matcher for `re.match(r'SPN\s*(\d+)\s*FMI\s*(\d+)', code_str)`
(`models.py` line 102): anchored at the start only (trailing text is
ignored), groups parsed with `int`. The character classes of adjacent
regex pieces are disjoint, so greedy matching without backtracking is
complete. -/
def matchSpnFmi (l : List Char) : Option (Nat × Nat) :=
  match l with
  | 'S' :: 'P' :: 'N' :: rest =>
      let r1 := rest.dropWhile pyIsSpace
      let d1 := r1.takeWhile Char.isDigit
      if d1.isEmpty then none
      else
        match (r1.dropWhile Char.isDigit).dropWhile pyIsSpace with
        | 'F' :: 'M' :: 'I' :: r3 =>
            let d2 := (r3.dropWhile pyIsSpace).takeWhile Char.isDigit
            if d2.isEmpty then none else some (digitsToNat d1, digitsToNat d2)
        | _ => none
  | _ => none

/-- Matcher for `re.match(r'^P\d{4}$', code_str)` (`models.py` line 109):
the literal `P` followed by exactly four digits, to the end of the string. -/
def matchObd2 (l : List Char) : Bool :=
  match l with
  | ['P', a, b, c, d] => a.isDigit && b.isDigit && c.isDigit && d.isDigit
  | _ => false

/-- Matcher for `re.match(r'^(SID|PID)\s*(\d+)$', code_str)`
(`models.py` line 114): returns group 1 (the prefix word) and group 2 (the
digit string, kept verbatim as the source does). -/
def matchPidSid (l : List Char) : Option (String × List Char) :=
  let digitsAtEnd (pfx : String) (rest : List Char) : Option (String × List Char) :=
    let r1 := rest.dropWhile pyIsSpace
    let d := r1.takeWhile Char.isDigit
    if d.isEmpty then none
    else if (r1.dropWhile Char.isDigit).isEmpty then some (pfx, d) else none
  match l with
  | 'S' :: 'I' :: 'D' :: rest => digitsAtEnd "SID" rest
  | 'P' :: 'I' :: 'D' :: rest => digitsAtEnd "PID" rest
  | _ => none

/-- Argument of `resolve_fault_code`: the docstring admits both a string
and a bare integer OEM code; line 99 funnels both through `str(...)`. -/
inductive CodeInput where
  | str (s : String) : CodeInput
  | int (n : Int) : CodeInput
  deriving Repr, DecidableEq

/-- Python `str(...)` applied to the resolver argument. -/
def CodeInput.pyStr : CodeInput → String
  | .str s => s
  | .int n => toString n

/-- The format auto-detection cascade in the body of `resolve_fault_code`
(`models.py` lines 101-129), applied to the stripped, uppercased input:
SPN/FMI first, then OBD-II, then PID/SID (normalised to `"<PREFIX> <digits>"`),
then Cummins OEM integer, else `None`. This is what the body computes once
the name `re` resolves. -/
def resolve_fault_code_matching (db : Database) (code_str : String) :
    Option EnrichedFaultCode :=
  let l := code_str.toList
  match matchSpnFmi l with
  | some (spn, fmi) => get_fault_code_by_spn_fmi db (spn : Int) (fmi : Int)
  | none =>
      if matchObd2 l then get_fault_code_by_obd2 db code_str
      else
        match matchPidSid l with
        | some (pfx, num) => get_fault_code_by_pid_sid db (pfx ++ " " ++ String.mk num)
        | none =>
            match pyIntParse l with
            | some n => get_fault_code_by_cummins_code db n
            | none => none

/-- The module-level names bound by the top of `backend/database/models.py`
(lines 6-9): `sqlite3`, `os`, `json`, `datetime`. The name `re` is absent —
the module contains no line importing it. -/
def models_imports : List String := ["sqlite3", "os", "json", "datetime"]

/-- Embedding of `resolve_fault_code` (`models.py` lines 88-129). Line 99
builds `code_str = str(code_input).strip().upper()`; line 102 then evaluates
the global name `re`, which `models_imports` does not bind, so every call
raises `NameError: name 're' is not defined` before any pattern is tried. -/
def resolve_fault_code (db : Database) (code_input : CodeInput) :
    Except PyError (Option EnrichedFaultCode) :=
  let code_str := pyStrUpper (pyStrStrip code_input.pyStr)
  if models_imports.contains "re" then
    .ok (resolve_fault_code_matching db code_str)
  else
    .error (.nameError "re")

/-- Ordering used by `ORDER BY service_date DESC`: earlier list positions
carry the later (or equal) service date. -/
def serviceDateDesc (a b : ServiceRecordRow) : Prop :=
  b.service_date ≤ a.service_date

instance : DecidableRel serviceDateDesc :=
  fun a b => inferInstanceAs (Decidable (b.service_date ≤ a.service_date))

instance : IsTotal ServiceRecordRow serviceDateDesc :=
  ⟨fun a b => Nat.le_total b.service_date a.service_date⟩

instance : IsTrans ServiceRecordRow serviceDateDesc :=
  ⟨fun _ _ _ hab hbc => Nat.le_trans hbc hab⟩

/-- Column projection performed by the `SELECT` list of
`get_service_history` (`models.py` lines 178-179). -/
def serviceProject (r : ServiceRecordRow) : ServiceHistoryEntry :=
  { service_date := r.service_date
    fault_code_input := r.fault_code_input
    repair_type := r.repair_type
    parts_replaced := r.parts_replaced
    part_cost := r.part_cost
    technician_notes := r.technician_notes
    warranty_status := r.warranty_status }

/-- Embedding of `get_service_history` (`models.py` lines 173-188):
`WHERE engine_serial = ? AND service_date > date('now', '-N months')
ORDER BY service_date DESC LIMIT 10`, then the column projection.
`cutoff` stands for the time point `date('now', '-months_back months')`
computed by the store; quantifying over `cutoff` covers every `months_back`
value. -/
def get_service_history (db : Database) (cutoff : Nat) (engine_serial : String) :
    List ServiceHistoryEntry :=
  ((((db.service_history.filter
        (fun r => r.engine_serial == engine_serial && decide (cutoff < r.service_date))).insertionSort
          serviceDateDesc).take 10).map serviceProject)

/-- Ordering used by `ORDER BY timestamp DESC` on `decision_logs`. -/
def decisionTimeDesc (a b : DecisionLogRow) : Prop :=
  b.timestamp ≤ a.timestamp

instance : DecidableRel decisionTimeDesc :=
  fun a b => inferInstanceAs (Decidable (b.timestamp ≤ a.timestamp))

instance : IsTotal DecisionLogRow decisionTimeDesc :=
  ⟨fun a b => Nat.le_total b.timestamp a.timestamp⟩

instance : IsTrans DecisionLogRow decisionTimeDesc :=
  ⟨fun _ _ _ hab hbc => Nat.le_trans hbc hab⟩

/-- Embedding of `log_decision` (`models.py` lines 213-254). Line 222 calls
`resolve_fault_code(fault_code_input)` before opening any connection; since
that call raises `NameError` (the module never binds `re`), the `INSERT`
below it is unreachable. The unreachable tail is still embedded faithfully:
`now` is `datetime.now()` at write time, `cursor.lastrowid` is modelled as
one past the current row count, and the `json.dumps(...) if ... else None`
blob arguments arrive pre-serialised as `Option String`. (Were the call to
get that far, the `INSERT` would further name the columns
`fault_code_input` and `fault_code_id`, which the `decision_logs` relation
of `setup_db.create_database` does not have — that relation has a single
`fault_code NOT NULL` column; the row below follows the writer's view.) -/
def log_decision (db : Database) (now : Nat)
    (engine_serial : String) (fault_code_input : CodeInput)
    (tech_id tech_skill_level symptoms : String)
    (triage_diagnosis : String) (triage_confidence : Int) (triage_reasoning : String)
    (escalation_decision escalation_reasoning : String)
    (requires_approval : Bool) (online_status : String)
    (alternative_causes recommended_tests recent_repairs service_history_flags
      insite_data : Option String)
    (llm_model llm_version : String) :
    Except PyError (Database × Nat) := do
  let resolved ← resolve_fault_code db fault_code_input
  let fault_code_id := resolved.map fun e => e.row.id
  let decision_id := db.decision_logs.length + 1
  let row : DecisionLogRow :=
    { id := decision_id
      timestamp := now
      engine_serial := engine_serial
      fault_code_input := fault_code_input.pyStr
      fault_code_id := fault_code_id
      tech_id := tech_id
      tech_skill_level := tech_skill_level
      symptoms := symptoms
      insite_data := insite_data
      triage_diagnosis := triage_diagnosis
      triage_confidence := triage_confidence
      triage_reasoning := triage_reasoning
      alternative_causes := alternative_causes
      recommended_tests := recommended_tests
      recent_repairs := recent_repairs
      service_history_flags := service_history_flags
      escalation_decision := escalation_decision
      escalation_reasoning := escalation_reasoning
      requires_approval := requires_approval
      online_status := online_status
      llm_model := llm_model
      llm_version := llm_version
      approved_by := none
      approval_timestamp := none
      actual_repair := none
      parts_used := none
      repair_successful := none
      updated_at := now }
  return ({ db with decision_logs := db.decision_logs ++ [row] }, decision_id)

/-- Embedding of `get_pending_escalations` (`models.py` lines 257-269):
`SELECT * FROM decision_logs WHERE requires_approval = 1 AND approved_by IS
NULL ORDER BY timestamp DESC`. -/
def get_pending_escalations (db : Database) : List DecisionLogRow :=
  (db.decision_logs.filter
      (fun r => r.requires_approval && r.approved_by == none)).insertionSort
    decisionTimeDesc

/-- Embedding of `approve_decision` (`models.py` lines 272-285): an SQL
`UPDATE ... WHERE id = ?` rewrites every row whose `id` matches (at most
one, `id` being the integer primary key) and succeeds untouched when none
does. `t1` and `t2` are the two separate `datetime.now()` calls feeding
`approval_timestamp` and `updated_at`. -/
def approve_decision (db : Database) (decision_id : Nat) (approved_by : String)
    (t1 t2 : Nat) : Database :=
  { db with
    decision_logs := db.decision_logs.map fun r =>
      if r.id = decision_id then
        { r with approved_by := some approved_by
                 approval_timestamp := some t1
                 updated_at := t2 }
      else r }

/-! ## Claim theorems for the escalation policy (`EscalationAgent.decide`) -/

/-- C1: for every confidence, complexity and technician skill tier,
`EscalationAgent.decide` returns the result of the first matching rule in
the fixed order: (1) confidence > 85 and complexity = low yields PROCEED
with `requires_approval = false`; (2) confidence < 70 yields ESCALATE with
`requires_approval = true`; (3) complexity = high yields ESCALATE with
`requires_approval = true`; (4) otherwise PROCEED_WITH_GUIDANCE with
`requires_approval = false` and a reasoning string referencing the
technician's skill tier. -/
theorem escalation_decide_rule_order (confidence : Int) (complexity tech_level : String) :
    (85 < confidence ∧ complexity = "low" →
      EscalationAgent.decide confidence complexity tech_level =
        { decision := "PROCEED", reasoning := "High confidence, routine repair",
          requires_approval := false }) ∧
    (¬(85 < confidence ∧ complexity = "low") → confidence < 70 →
      EscalationAgent.decide confidence complexity tech_level =
        { decision := "ESCALATE", reasoning := "Low confidence, need senior review",
          requires_approval := true }) ∧
    (¬(85 < confidence ∧ complexity = "low") → ¬(confidence < 70) → complexity = "high" →
      EscalationAgent.decide confidence complexity tech_level =
        { decision := "ESCALATE", reasoning := "High complexity, need senior approval",
          requires_approval := true }) ∧
    (¬(85 < confidence ∧ complexity = "low") → ¬(confidence < 70) → ¬(complexity = "high") →
      EscalationAgent.decide confidence complexity tech_level =
        { decision := "PROCEED_WITH_GUIDANCE",
          reasoning := "Medium complexity, " ++ tech_level ++ " tech can handle with guidance",
          requires_approval := false }) := by
  unfold EscalationAgent.decide
  refine ⟨fun h1 => ?_, fun h1 h2 => ?_, fun h1 h2 h3 => ?_, fun h1 h2 h3 => ?_⟩
  · rw [if_pos h1]
  · rw [if_neg h1, if_pos h2]
  · rw [if_neg h1, if_neg h2, if_pos h3]
  · rw [if_neg h1, if_neg h2, if_neg h3]

/-- Witness for C1: each of the four rules fires at a concrete input drawn
from the spec's test table. -/
theorem escalation_decide_rule_order_witness :
    EscalationAgent.decide 90 "low" "junior" =
      { decision := "PROCEED", reasoning := "High confidence, routine repair",
        requires_approval := false } ∧
    EscalationAgent.decide 60 "medium" "junior" =
      { decision := "ESCALATE", reasoning := "Low confidence, need senior review",
        requires_approval := true } ∧
    EscalationAgent.decide 75 "high" "senior" =
      { decision := "ESCALATE", reasoning := "High complexity, need senior approval",
        requires_approval := true } ∧
    EscalationAgent.decide 75 "medium" "intermediate" =
      { decision := "PROCEED_WITH_GUIDANCE",
        reasoning := "Medium complexity, intermediate tech can handle with guidance",
        requires_approval := false } :=
  ⟨(escalation_decide_rule_order 90 "low" "junior").1 (by decide),
   (escalation_decide_rule_order 60 "medium" "junior").2.1 (by decide) (by decide),
   (escalation_decide_rule_order 75 "high" "senior").2.2.1 (by decide) (by decide) (by decide),
   (escalation_decide_rule_order 75 "medium" "intermediate").2.2.2
     (by decide) (by decide) (by decide)⟩

/-- C3: feeding the fallback diagnosis (confidence = 0) into
`EscalationAgent.decide` yields `requires_approval = true` and the
ESCALATE decision, for every complexity value and technician skill tier:
a broken model response can never authorize unsupervised repair. -/
theorem fallback_always_escalates (complexity tech_level : String) :
    (EscalationAgent.decide TriageAgent.fallback.confidence complexity tech_level).requires_approval
      = true ∧
    (EscalationAgent.decide TriageAgent.fallback.confidence complexity tech_level).decision
      = "ESCALATE" := by
  have hc : TriageAgent.fallback.confidence = 0 := rfl
  rw [hc]
  unfold EscalationAgent.decide
  rw [if_neg (fun h => absurd h.1 (by decide)), if_pos (by decide : (0:Int) < 70)]
  exact ⟨rfl, rfl⟩

/-- C10: for every confidence, complexity and technician skill tier, the
result of `EscalationAgent.decide` has `requires_approval = true` exactly
when its decision label is `"ESCALATE"`; the PROCEED and
PROCEED_WITH_GUIDANCE labels always carry `requires_approval = false`. -/
theorem escalation_approval_iff_escalate (confidence : Int) (complexity tech_level : String) :
    (EscalationAgent.decide confidence complexity tech_level).requires_approval = true ↔
    (EscalationAgent.decide confidence complexity tech_level).decision = "ESCALATE" := by
  unfold EscalationAgent.decide
  split_ifs <;> simp

/-- Witness for C10: the equivalence evaluated at a concrete input. -/
theorem escalation_approval_iff_escalate_witness :
    ((EscalationAgent.decide 60 "medium" "junior").requires_approval = true ↔
      (EscalationAgent.decide 60 "medium" "junior").decision = "ESCALATE") :=
  escalation_approval_iff_escalate 60 "medium" "junior"

/-! ## Claim theorems for the diagnosis service (`TriageAgent.diagnose`) -/

/-- Characters surviving `str.strip()` were present in the original string. -/
theorem mem_of_mem_pyStrip {c : Char} {l : List Char} (h : c ∈ pyStrip l) : c ∈ l := by
  unfold pyStrip at h
  rw [List.mem_reverse] at h
  have h1 := (List.dropWhile_sublist (l := (l.dropWhile pyIsSpace).reverse)
    (p := pyIsSpace)).subset h
  rw [List.mem_reverse] at h1
  exact (List.dropWhile_sublist (l := l) (p := pyIsSpace)).subset h1

/-- Python `str.rfind` returns `-1` when the character does not occur. -/
theorem pyRFind_eq_neg_one {c : Char} {l : List Char} (h : c ∉ l) : pyRFind l c = -1 := by
  unfold pyRFind
  have hnone : l.reverse.findIdx? (· = c) = none := by
    rw [List.findIdx?_eq_none_iff]
    intro x hx
    simp only [decide_eq_false_iff_not]
    rintro rfl
    exact h (List.mem_reverse.mp hx)
  rw [hnone]

/-- When the backend response contains no `'}'`, the sliced candidate
`json_str` is the empty string (so `json.loads` raises and the bare
`except:` fires). -/
theorem json_str_eq_empty (stdout : String) (h : '}' ∉ stdout.toList) :
    TriageAgent.json_str stdout = "" := by
  have h2 : '}' ∉ pyStrip stdout.toList := fun hm => h (mem_of_mem_pyStrip hm)
  simp only [TriageAgent.json_str]
  rw [pyRFind_eq_neg_one h2]
  norm_num
  unfold pySlice
  have hz : pyNormIdx (pyStrip stdout.data).length 0 = 0 := by
    simp [pyNormIdx]
  rw [hz]
  simp

/-- C2 counterexample: at the concrete input where the 30-second backend
call times out, `TriageAgent.diagnose` raises `subprocess.TimeoutExpired`
past its boundary instead of returning the fallback result, refuting the
claim that a timeout yields exactly the fallback. -/
theorem diagnose_timeout_not_fallback :
    TriageAgent.diagnose (fun _ => none) TriageAgent.RunResult.timeout =
      Except.error PyError.timeoutExpired ∧
    TriageAgent.diagnose (fun _ => none) TriageAgent.RunResult.timeout ≠
      Except.ok TriageAgent.fallback :=
  ⟨rfl, fun h => nomatch h⟩

/-- C2 as amended: on every completed backend response the parsing
boundary never raises — a decoded object is returned as-is, and ANY decode
failure of the brace-sliced candidate yields exactly the fallback (second
conjunct, covering every malformed structure, braces present or not); in
particular a response containing no `'{'`/`'}'` pair does, given only that
`json.loads` fails on the empty string (third conjunct); but a timeout of
the 30-second backend call raises `subprocess.TimeoutExpired` past the
boundary (fourth conjunct). -/
theorem diagnose_parse_failure_fallback (loads : String → Option Diagnosis) (stdout : String) :
    (∃ d, TriageAgent.diagnose loads (.ok stdout) = Except.ok d) ∧
    (loads (TriageAgent.json_str stdout) = none →
      TriageAgent.diagnose loads (.ok stdout) = Except.ok TriageAgent.fallback) ∧
    (loads "" = none → '{' ∉ stdout.toList → '}' ∉ stdout.toList →
      TriageAgent.diagnose loads (.ok stdout) = Except.ok TriageAgent.fallback) ∧
    TriageAgent.diagnose loads TriageAgent.RunResult.timeout =
      Except.error PyError.timeoutExpired := by
  have hd : TriageAgent.diagnose loads (.ok stdout) =
      Except.ok ((loads (TriageAgent.json_str stdout)).getD TriageAgent.fallback) := by
    show (match loads (TriageAgent.json_str stdout) with
          | some d => (Except.ok d : Except PyError Diagnosis)
          | none => Except.ok TriageAgent.fallback) =
        Except.ok ((loads (TriageAgent.json_str stdout)).getD TriageAgent.fallback)
    cases loads (TriageAgent.json_str stdout) <;> rfl
  refine ⟨⟨_, hd⟩, fun hn => ?_, fun hl _ h2 => ?_, rfl⟩
  · rw [hd, hn]
    rfl
  · rw [hd, json_str_eq_empty stdout h2, hl]
    rfl

/-- Witness for the amended C2: a concrete brace-containing reply whose
sliced candidate fails to decode yields exactly the fallback triple, and so
does a concrete braceless reply. -/
theorem diagnose_parse_failure_fallback_witness :
    TriageAgent.diagnose (fun _ => none)
      (TriageAgent.RunResult.ok "model said \x7bnot json\x7d here") =
      Except.ok TriageAgent.fallback ∧
    TriageAgent.diagnose (fun _ => none)
      (TriageAgent.RunResult.ok "model said nothing useful") =
      Except.ok TriageAgent.fallback :=
  ⟨(diagnose_parse_failure_fallback (fun _ => none) "model said \x7bnot json\x7d here").2.1
     rfl,
   (diagnose_parse_failure_fallback (fun _ => none) "model said nothing useful").2.2.1
     rfl (by decide) (by decide)⟩

/-! ## Claim theorems for the fault-code resolver and audit log -/

/-- C4: the claim that `resolve_fault_code("notacode")` returns NotFound
without crashing fails on the code: `models.py` never binds the name `re`,
so the call raises `NameError` at its first regex match, for every database
state. The second conjunct records that the body's own matching cascade
would indeed yield NotFound on the stripped, uppercased input, confirming
the docstring's intent that the missing line breaks. -/
theorem resolve_notacode_name_error (db : Database) :
    resolve_fault_code db (.str "notacode") = .error (.nameError "re") ∧
    resolve_fault_code_matching db (pyStrUpper (pyStrStrip "notacode")) = none :=
  ⟨rfl, rfl⟩

/-- C6: the claim that `resolve_fault_code` dispatches notation-insensitively
fails on the code — every call raises `NameError` because `models.py` never
binds `re` (first three conjuncts, covering the claim's own inputs
"SPN 157 FMI 18", "spn157fmi18" and the integer 559). The remaining
conjuncts prove that the body's matching cascade, reached only if the name
resolved, does satisfy the claimed equivalences: both SPN/FMI spellings
dispatch to the SPN/FMI lookup with integers 157 and 18; "p0420" and
"P0420" resolve identically; the string "559" and `str(559)` resolve
identically via the OEM-numeric lookup. -/
theorem resolve_notation_name_error (db : Database) :
    resolve_fault_code db (.str "SPN 157 FMI 18") = .error (.nameError "re") ∧
    resolve_fault_code db (.str "spn157fmi18") = .error (.nameError "re") ∧
    resolve_fault_code db (.int 559) = .error (.nameError "re") ∧
    resolve_fault_code_matching db (pyStrUpper (pyStrStrip "SPN 157 FMI 18")) =
      get_fault_code_by_spn_fmi db 157 18 ∧
    resolve_fault_code_matching db (pyStrUpper (pyStrStrip "spn157fmi18")) =
      get_fault_code_by_spn_fmi db 157 18 ∧
    resolve_fault_code_matching db (pyStrUpper (pyStrStrip "p0420")) =
      resolve_fault_code_matching db (pyStrUpper (pyStrStrip "P0420")) ∧
    resolve_fault_code_matching db (pyStrUpper (pyStrStrip "559")) =
      resolve_fault_code_matching db (pyStrUpper (pyStrStrip (CodeInput.int 559).pyStr)) :=
  ⟨rfl, rfl, rfl, rfl, rfl, rfl, rfl⟩

/-- C5: the claim that `log_decision` resolves the fault code, persists one
`DecisionLog` row and returns its id fails on the code: for every database
state and every field set, the `resolve_fault_code` call on its first line
raises `NameError` (the module never binds `re`), so nothing is ever
persisted and no id is returned. -/
theorem log_decision_name_error (db : Database) (now : Nat) (engine_serial : String)
    (fault_code_input : CodeInput)
    (tech_id tech_skill_level symptoms triage_diagnosis : String)
    (triage_confidence : Int)
    (triage_reasoning escalation_decision escalation_reasoning : String)
    (requires_approval : Bool) (online_status : String)
    (alternative_causes recommended_tests recent_repairs service_history_flags
      insite_data : Option String)
    (llm_model llm_version : String) :
    log_decision db now engine_serial fault_code_input tech_id tech_skill_level
      symptoms triage_diagnosis triage_confidence triage_reasoning
      escalation_decision escalation_reasoning requires_approval online_status
      alternative_causes recommended_tests recent_repairs service_history_flags
      insite_data llm_model llm_version = .error (.nameError "re") :=
  rfl

/-- C7: for every database state, lookback cutoff (hence every `months_back`
value) and engine serial, `get_service_history` returns qualifying service
records only, ordered most-recent-first by service date and hard-capped at
10 rows: its length is the minimum of 10 and the number of qualifying rows
(so 15 qualifying rows yield exactly 10), and an unknown engine serial
yields the empty sequence rather than an error. -/
theorem get_service_history_spec (db : Database) (cutoff : Nat) (engine_serial : String) :
    (get_service_history db cutoff engine_serial).length =
      min 10 (db.service_history.countP
        (fun r => r.engine_serial == engine_serial && decide (cutoff < r.service_date))) ∧
    List.Sorted (fun a b : ServiceHistoryEntry => b.service_date ≤ a.service_date)
      (get_service_history db cutoff engine_serial) ∧
    (∀ e ∈ get_service_history db cutoff engine_serial,
      ∃ r, r ∈ db.service_history ∧ r.engine_serial = engine_serial ∧
        cutoff < r.service_date ∧ e = serviceProject r) ∧
    ((∀ r ∈ db.service_history, r.engine_serial ≠ engine_serial) →
      get_service_history db cutoff engine_serial = []) ∧
    (db.service_history.countP
        (fun r => r.engine_serial == engine_serial && decide (cutoff < r.service_date)) = 15 →
      (get_service_history db cutoff engine_serial).length = 10) := by
  have hlen : (get_service_history db cutoff engine_serial).length =
      min 10 (db.service_history.countP
        (fun r => r.engine_serial == engine_serial && decide (cutoff < r.service_date))) := by
    unfold get_service_history
    rw [List.length_map, List.length_take,
      (List.perm_insertionSort serviceDateDesc _).length_eq,
      ← List.countP_eq_length_filter]
  refine ⟨hlen, ?_, ?_, ?_, fun h15 => by rw [hlen, h15]; decide⟩
  · unfold get_service_history
    exact List.pairwise_map.mpr
      (((List.sorted_insertionSort serviceDateDesc _).sublist
        (List.take_sublist _ _)).imp (fun {a b} h => h))
  · intro e he
    unfold get_service_history at he
    rw [List.mem_map] at he
    obtain ⟨r, hr, rfl⟩ := he
    have hr2 : r ∈ db.service_history.filter
        (fun r => r.engine_serial == engine_serial && decide (cutoff < r.service_date)) :=
      (List.mem_insertionSort serviceDateDesc).mp ((List.take_sublist _ _).subset hr)
    rw [List.mem_filter] at hr2
    obtain ⟨hmem, hq⟩ := hr2
    simp only [Bool.and_eq_true, beq_iff_eq, decide_eq_true_eq] at hq
    exact ⟨r, hmem, hq.1, hq.2, rfl⟩
  · intro h
    unfold get_service_history
    have hnil : db.service_history.filter
        (fun r => r.engine_serial == engine_serial && decide (cutoff < r.service_date)) = [] := by
      rw [List.filter_eq_nil_iff]
      intro r hr
      simp only [Bool.and_eq_true, beq_iff_eq, decide_eq_true_eq, not_and]
      exact fun hser => absurd hser (h r hr)
    rw [hnil]
    rfl

/-- One qualifying service record of the C7 fixture history. -/
def exServiceRecord (i : Nat) : ServiceRecordRow :=
  { id := i
    engine_serial := "E1"
    service_date := i
    fault_code_input := "559"
    repair_type := "inspection"
    parts_replaced := none
    part_cost := 0
    technician_id := none
    technician_notes := none
    warranty_status := "none" }

/-- Fixture database for C7: 15 service records for engine `E1`, dated 1
through 15, all inside the lookback window for `cutoff = 0`. -/
def exDb7 : Database :=
  { fault_codes := []
    typical_causes := []
    edge_cases := []
    service_history := (List.range 15).map (fun i => exServiceRecord (i + 1))
    decision_logs := [] }

/-- Witness for C7: against a history with 15 qualifying records the query
returns exactly 10 rows, and an unknown engine serial yields `[]`. -/
theorem get_service_history_witness :
    (get_service_history exDb7 0 "E1").length = 10 ∧
    get_service_history exDb7 0 "NOPE" = [] :=
  ⟨(get_service_history_spec exDb7 0 "E1").2.2.2.2 (by decide),
   (get_service_history_spec exDb7 0 "NOPE").2.2.2.1 (by decide)⟩

/-- C8: for every database state, `get_pending_escalations` is sorted
newest-first by timestamp and contains exactly the decision-log rows with
`requires_approval = true` and `approved_by` still unset: it never includes
a row whose `approved_by` is set and always includes every pending row. -/
theorem get_pending_escalations_spec (db : Database) :
    List.Sorted decisionTimeDesc (get_pending_escalations db) ∧
    ∀ row : DecisionLogRow, row ∈ get_pending_escalations db ↔
      (row ∈ db.decision_logs ∧ row.requires_approval = true ∧ row.approved_by = none) := by
  constructor
  · exact List.sorted_insertionSort decisionTimeDesc _
  · intro row
    unfold get_pending_escalations
    rw [List.mem_insertionSort, List.mem_filter]
    simp [Bool.and_eq_true, beq_iff_eq, and_assoc]

/-- Pending fixture row: requires approval, not yet approved. -/
def exPendingRow : DecisionLogRow :=
  { id := 1
    timestamp := 2
    engine_serial := "E1"
    fault_code_input := "559"
    fault_code_id := none
    tech_id := "T1"
    tech_skill_level := "junior"
    symptoms := "hard start"
    insite_data := none
    triage_diagnosis := "d"
    triage_confidence := 40
    triage_reasoning := "r"
    alternative_causes := none
    recommended_tests := none
    recent_repairs := none
    service_history_flags := none
    escalation_decision := "ESCALATE"
    escalation_reasoning := "Low confidence, need senior review"
    requires_approval := true
    online_status := "online"
    llm_model := "llama-3.2-3b"
    llm_version := "v1.0"
    approved_by := none
    approval_timestamp := none
    actual_repair := none
    parts_used := none
    repair_successful := none
    updated_at := 2 }

/-- Approved fixture row: same shape, but `approved_by` already set. -/
def exApprovedRow : DecisionLogRow :=
  { exPendingRow with
    id := 2
    timestamp := 3
    approved_by := some "S1"
    approval_timestamp := some 4 }

/-- Fixture database holding one pending and one approved decision log. -/
def exDb8 : Database :=
  { fault_codes := []
    typical_causes := []
    edge_cases := []
    service_history := []
    decision_logs := [exPendingRow, exApprovedRow] }

/-- Witness for C8: the pending fixture row is returned, the approved one
is not. -/
theorem get_pending_escalations_witness :
    exPendingRow ∈ get_pending_escalations exDb8 ∧
    exApprovedRow ∉ get_pending_escalations exDb8 :=
  ⟨((get_pending_escalations_spec exDb8).2 exPendingRow).mpr (by decide),
   fun h => absurd (((get_pending_escalations_spec exDb8).2 exApprovedRow).mp h).2.2
     (by decide)⟩

/-- C9: `approve_decision` sets `approved_by` and an approval timestamp on
the row with the given id, and when no row with that id exists it is a
silent no-op — no error is raised and the database is left completely
unchanged. -/
theorem approve_decision_spec (db : Database) (decision_id : Nat) (approver : String)
    (t1 t2 : Nat) :
    ((∀ r ∈ db.decision_logs, r.id ≠ decision_id) →
      approve_decision db decision_id approver t1 t2 = db) ∧
    (∀ r ∈ db.decision_logs, r.id = decision_id →
      { r with approved_by := some approver, approval_timestamp := some t1,
               updated_at := t2 } ∈
        (approve_decision db decision_id approver t1 t2).decision_logs) := by
  constructor
  · intro h
    unfold approve_decision
    have hmap : db.decision_logs.map (fun r => if r.id = decision_id then
        { r with approved_by := some approver, approval_timestamp := some t1,
                 updated_at := t2 } else r) = db.decision_logs := by
      rw [List.map_congr_left (fun r hr => if_neg (h r hr))]
      exact List.map_id _
    rw [hmap]
  · intro r hr hid
    have hm := List.mem_map_of_mem (fun r : DecisionLogRow => if r.id = decision_id then
        { r with approved_by := some approver, approval_timestamp := some t1,
                 updated_at := t2 } else r) hr
    simp only [] at hm
    rw [if_pos hid] at hm
    exact hm

/-- Witness for C9: approving a nonexistent id (99) leaves the fixture
database untouched, and approving the existing id (1) puts the updated row
in the table. -/
theorem approve_decision_witness :
    approve_decision exDb8 99 "S9" 7 8 = exDb8 ∧
    { exPendingRow with
        approved_by := some "S9"
        approval_timestamp := some 7
        updated_at := 8 } ∈ (approve_decision exDb8 1 "S9" 7 8).decision_logs :=
  ⟨(approve_decision_spec exDb8 99 "S9" 7 8).1 (by decide),
   (approve_decision_spec exDb8 1 "S9" 7 8).2 exPendingRow (by decide) rfl⟩
